import Mathlib

/-!
Verification development for the agent-to-agent messaging MCP servers.

The repository ships two transport variants:
* a direct (tmux-injection) variant: presence is a set of `/tmp/claude_agent_*.json`
  files, delivery spawns an external `snd` process per target;
* a bus (NATS) variant: delivery publishes JSON envelopes to subjects and
  `check_messages` pulls from two subjects concurrently.

The embedding below translates the source functions into pure Lean functions.
Filesystem state is passed explicitly as a list of parsed presence files;
the `snd` subprocess and the bus publish/subscribe primitives are passed as
oracles (`String → String → Except String Unit`, etc.), and every function
additionally returns the list of transport calls it makes so that theorems
can speak about delivery attempts.
-/

namespace AgentsMcp

/-- One parsed presence file `/tmp/claude_agent_*.json`, together with the
modification time of the file (`statSync(filePath).mtimeMs`).  Fields the JSON may
lack are `Option`s; a JS empty string is kept as `some ""` and handled by the
truthiness helpers below.  Files whose JSON fails to parse are skipped by the
source before this point, so the input list of the embedding holds parsed files. -/
structure PresenceFile where
  agent_id : Option String
  agent_name : Option String
  tmux_session : Option String
  tmux_window : Option String
  tmux_pane : Option String
  mtimeMs : Int
  deriving DecidableEq, Repr

/-- The in-memory record built by `getActiveAgents` (interface `AgentInfo`). -/
structure AgentInfo where
  id : String
  name : String
  tmux_pane : String
  is_stale : Bool
  deriving DecidableEq, Repr

/-- JS `x || d` on an optional string: `undefined` and `""` fall back to `d`. -/
def jsOr (v : Option String) (d : String) : String :=
  match v with
  | none => d
  | some s => if s = "" then d else s

/-- `const staleThreshold = 5 * 60 * 1000` (milliseconds). -/
def staleThreshold : Int := 5 * 60 * 1000

/-- `const fileAge = now - stat.mtimeMs; const isStale = fileAge > staleThreshold`. -/
def isStaleFile (now : Int) (f : PresenceFile) : Bool :=
  decide (now - f.mtimeMs > staleThreshold)

/-- `data.tmux_session && data.tmux_window && data.tmux_pane ?
    session:window.pane : ""` — the pane address is assembled only when all
three fields are present (truthy, i.e. defined and non-empty). -/
def paneOf (f : PresenceFile) : String :=
  match f.tmux_session, f.tmux_window, f.tmux_pane with
  | some s, some w, some p =>
      if s = "" || w = "" || p = "" then ""
      else s ++ ":" ++ w ++ "." ++ p
  | _, _, _ => ""

/-- The record pushed by `getActiveAgents` for one presence file. -/
def mkAgent (now : Int) (f : PresenceFile) : AgentInfo :=
  { id := jsOr f.agent_id "unknown"
    name := jsOr f.agent_name "unknown"
    tmux_pane := paneOf f
    is_stale := isStaleFile now f }

/-- `getActiveAgents(includeStale = false)`: iterate over the presence files,
skip a stale file unless `includeStale`, and build an `AgentInfo` per kept
file (`if (!includeStale && isStale) continue;`). -/
def getActiveAgents (includeStale : Bool) (now : Int)
    (files : List PresenceFile) : List AgentInfo :=
  files.filterMap (fun f =>
    if !includeStale && isStaleFile now f then none
    else some (mkAgent now f))

/-- `args.agent_id.split("-")[0]`: the portion of the id before the first
hyphen (the whole string when it has no hyphen; `""` for the empty string). -/
def senderShortName (agent_id : String) : String :=
  String.mk (agent_id.toList.takeWhile (fun c => c != '-'))

/-- Arguments of `agent_broadcast` (schema `AgentBroadcastSchema`; the
`priority` field is accepted by the schema but never read by the handler). -/
structure BroadcastArgs where
  agent_id : String
  message : String
  deriving DecidableEq, Repr

/-- Arguments of `agent_dm` (schema `AgentDMSchema`); the source field `to`
is spelled `toAgent` here because `to` is reserved in Lean. -/
structure DMArgs where
  agent_id : String
  toAgent : String
  message : String
  deriving DecidableEq, Repr

/-- `agents.filter(a => a.id !== args.agent_id && a.tmux_pane)`: everyone but
the sender that has a usable pane address. -/
def broadcastTargets (agents : List AgentInfo) (sender : String) : List AgentInfo :=
  agents.filter (fun a => a.id != sender && a.tmux_pane != "")

/-- `agentBroadcast` of the direct variant.  `snd pane text` is the
`runSnd` oracle (exit 0 = `Except.ok`, otherwise `Except.error` carrying the
stringified error).  Returns the reply string together with the list of
`(pane, text)` transport calls made, in order. -/
def agentBroadcast (snd : String → String → Except String Unit) (now : Int)
    (files : List PresenceFile) (args : BroadcastArgs) :
    String × List (String × String) :=
  let agents := getActiveAgents false now files
  let senderName := senderShortName args.agent_id
  let targets := broadcastTargets agents args.agent_id
  if targets.length = 0 then
    ("No other agents to broadcast to", [])
  else
    let formattedMsg := "[" ++ senderName ++ "] " ++ args.message
    ("Broadcast sent to " ++ toString targets.length ++ " agent(s):\n" ++
       String.intercalate "\n" (targets.map (fun t =>
         match snd t.tmux_pane formattedMsg with
         | Except.ok _ => "✓ " ++ t.name
         | Except.error e => "✗ " ++ t.name ++ ": " ++ e)),
     targets.map (fun t => (t.tmux_pane, formattedMsg)))

/-- `agentDM` of the direct variant: exact-id lookup
(`agents.find(a => a.id === args.toAgent)`), pane check, then one `snd` call. -/
def agentDM (snd : String → String → Except String Unit) (now : Int)
    (files : List PresenceFile) (args : DMArgs) :
    String × List (String × String) :=
  let agents := getActiveAgents false now files
  let senderName := senderShortName args.agent_id
  match agents.find? (fun a => a.id == args.toAgent) with
  | none => ("Agent " ++ args.toAgent ++ " not found", [])
  | some target =>
    if target.tmux_pane = "" then
      ("Agent " ++ args.toAgent ++ " has no tmux pane", [])
    else
      let formattedMsg := "[DM from " ++ senderName ++ "] " ++ args.message
      match snd target.tmux_pane formattedMsg with
      | Except.ok _ => ("DM sent to " ++ target.name, [(target.tmux_pane, formattedMsg)])
      | Except.error e => ("Failed to send DM: " ++ e, [(target.tmux_pane, formattedMsg)])

/-- The line `agentDiscover` renders for one agent. -/
def discoverLine (a : AgentInfo) : String :=
  "- " ++ a.name ++ " (" ++ a.id ++ "): " ++
    (if a.is_stale then "stale" else "active") ++
    " | pane: " ++ (if a.tmux_pane = "" then "unknown" else a.tmux_pane)

/-- `agentDiscover` of the direct variant. -/
def agentDiscover (includeStale : Bool) (now : Int)
    (files : List PresenceFile) : String :=
  let agents := getActiveAgents includeStale now files
  if agents.length = 0 then "No agents currently registered."
  else
    "Active agents (" ++ toString agents.length ++ "):\n" ++
      String.intercalate "\n" (agents.map discoverLine)

/-- `generateAgentId`: `name + "-" + randomBytes(4).toString("hex")`; the
8-hex-char entropy is passed in as `suffix`. -/
def generateAgentId (name suffix : String) : String :=
  name ++ "-" ++ suffix

/-- The JSON text returned by `agentRegister` (braces written as escapes). -/
def registerResultJson (agentId : String) : String :=
  "\x7b\"agent_id\":\"" ++ agentId ++
    "\",\"message\":\"Registered. Use this agent_id for all subsequent calls.\"\x7d"

/-- `agentRegister` of the direct variant.  The source only builds the id and
the reply JSON; it performs no filesystem write, so the presence-file state is
threaded through unchanged.  `description` is accepted but never read. -/
def agentRegister (name _description suffix : String)
    (files : List PresenceFile) : String × List PresenceFile :=
  (registerResultJson (generateAgentId name suffix), files)

/-- Property names of `AgentRegisterSchema` (direct variant). -/
def agentRegisterSchemaKeys : List String := ["name", "description"]

/-- Property names of `AgentBroadcastSchema` (direct variant). -/
def agentBroadcastSchemaKeys : List String := ["agent_id", "message", "priority"]

/-- Property names of `AgentDMSchema` (direct variant). -/
def agentDMSchemaKeys : List String := ["agent_id", "to", "message"]

/-- Property names of `AgentDiscoverSchema` (direct variant). -/
def agentDiscoverSchemaKeys : List String := ["include_stale"]

/-! ### Bus (NATS) variant, `src/index.ts` -/

/-- Arguments of `nats_agent_broadcast` (post-validation, so `priority` holds
its schema default `"normal"` when the caller omitted it). -/
structure BusBroadcastArgs where
  agent_id : String
  message : String
  priority : String
  deriving DecidableEq, Repr

/-- The `JSON.stringify` payload of the bus `agentBroadcast` (modelled as
literal JSON text; content escaping is immaterial here).  Mirrors
`\x7b from, msg, priority: args.priority || "normal", ts \x7d`. -/
def busBroadcastPayload (args : BusBroadcastArgs) (ts : Int) : String :=
  "\x7b\"from\":\"" ++ args.agent_id ++
    "\",\"msg\":\"" ++ args.message ++
    "\",\"priority\":\"" ++ (if args.priority = "" then "normal" else args.priority) ++
    "\",\"ts\":" ++ toString ts ++ "\x7d"

/-- Bus-variant `agentBroadcast`: one `publish` to the `agents.broadcast`
subject; success yields the fixed reply `"Broadcast sent"`, while a rejected
publish propagates as an error to the tool-call handler (`Except.error`). -/
def busAgentBroadcast (publish : String → String → Except String String)
    (args : BusBroadcastArgs) (ts : Int) : Except String String :=
  match publish "agents.broadcast" (busBroadcastPayload args ts) with
  | Except.ok _ => Except.ok "Broadcast sent"
  | Except.error e => Except.error e

/-- Arguments of one `subscribe` call of the bus variant: subject, message
cap, and the timeout bounding the subscription (ms). -/
structure SubscribeArgs where
  subject : String
  msgCount : Nat
  timeoutMs : Nat
  deriving DecidableEq, Repr

/-- JS `n || d` on a number: `0` falls back to `d`. -/
def jsOrNat (n d : Nat) : Nat :=
  if n = 0 then d else n

/-- The DM-subject subscription issued by `agentCheckMessages`:
`subscribe(\x7b subject: agents.dm.<id>, count: 10, timeout \x7d)`. -/
def checkDmArgs (agent_id : String) (t : Nat) : SubscribeArgs :=
  { subject := "agents.dm." ++ agent_id, msgCount := 10, timeoutMs := t }

/-- The broadcast-subject subscription issued by `agentCheckMessages`. -/
def checkBcArgs (t : Nat) : SubscribeArgs :=
  { subject := "agents.broadcast", msgCount := 10, timeoutMs := t }

/-- The batch of subscriptions `agentCheckMessages` hands to `Promise.all`:
both are constructed up front, before either result is awaited, and share one
timeout budget. -/
def checkMessagesIssued (agent_id : String) (timeout : Nat) : List SubscribeArgs :=
  [checkDmArgs agent_id (jsOrNat timeout 5000), checkBcArgs (jsOrNat timeout 5000)]

/-- The bus `subscribe` resolves with `"No messages received"` on timeout with
empty stdout and `"No messages"` on process exit with empty stdout; the merge
step of `agentCheckMessages` treats exactly the empty string and these two
sentinels as "nothing arrived". -/
def isNoMessages (s : String) : Bool :=
  s == "" || s == "No messages" || s == "No messages received"

/-- Bus-variant `agentCheckMessages`: subscribe to the DM subject and the
broadcast subject (both requests built with the same timeout and joined with
`Promise.all`, modelled by querying the bus oracle for each request of
`checkMessagesIssued`), then merge the two result sets. -/
def agentCheckMessages (bus : SubscribeArgs → String) (agent_id : String)
    (timeout : Nat) : String :=
  let t := jsOrNat timeout 5000
  let dms := bus (checkDmArgs agent_id t)
  let broadcasts := bus (checkBcArgs t)
  let messages :=
    (if isNoMessages dms then [] else ["[DMs]\n" ++ dms]) ++
      (if isNoMessages broadcasts then [] else ["[Broadcasts]\n" ++ broadcasts])
  if messages.length > 0 then String.intercalate "\n\n" messages
  else "No messages"

/-! ### Directory Resolver and DM history (ledger variant)

The ledger-backed variant (DuckDB storage) is documented by the README and test suite of the repository, but its implementation file is not part of the source
tree, so the two definitions below are modelled from the specification. -/

/-- Outcome of the Directory Resolver. -/
inductive ResolveResult where
  | found (a : AgentInfo)
  | notFound
  | ambiguous
  deriving DecidableEq, Repr

/-- Modelled from the spec: the Directory Resolver
(`resolve(reference, candidates)`), whose implementation is not in the source
tree.  Step 1: exact match against the full `id`; step 2: treat `reference`
as a short `name` and filter candidates by name; zero matches is `NotFound`,
a sole match is returned, several matches surface ambiguity. -/
def resolveAgent (reference : String) (candidates : List AgentInfo) : ResolveResult :=
  match candidates.find? (fun a => a.id == reference) with
  | some a => ResolveResult.found a
  | none =>
    match candidates.filter (fun a => a.name == reference) with
    | [] => ResolveResult.notFound
    | [a] => ResolveResult.found a
    | _ => ResolveResult.ambiguous

/-- One DM row of the History Ledger. -/
structure DmMessage where
  from_agent : String
  to_agent : String
  content : String
  deriving DecidableEq, Repr

/-- The bidirectional DM history between two ids: rows sent from `a` to `b`
or from `b` to `a`, in ledger order. -/
def dmBetween (ledger : List DmMessage) (a b : String) : List DmMessage :=
  ledger.filter (fun m =>
    (m.from_agent == a && m.to_agent == b) || (m.from_agent == b && m.to_agent == a))

/-- Modelled from the spec: `dm_history(agent_a, agent_b_reference, limit)`,
whose implementation (ledger variant) is not in the source tree.  It resolves
`agent_b_reference` through the Directory Resolver first, then renders the
bidirectional history between the two ids; an empty history yields the
explicit `"No DM history with X"` message (as the test suite shows) rather
than an empty list. -/
def dmHistory (ledger : List DmMessage) (candidates : List AgentInfo)
    (agent_a reference : String) (limit : Nat) : String :=
  match resolveAgent reference candidates with
  | ResolveResult.notFound => "Agent " ++ reference ++ " not found"
  | ResolveResult.ambiguous => "Ambiguous agent reference " ++ reference
  | ResolveResult.found b =>
    let msgs := (dmBetween ledger agent_a b.id).take limit
    if msgs.isEmpty then "No DM history with " ++ reference
    else String.intercalate "\n" (msgs.map (fun m =>
      senderShortName m.from_agent ++ ": " ++ m.content))

/-! ### Concrete fixtures shared by witnesses and counterexamples -/

/-- A transport oracle whose every delivery succeeds. -/
def sndAlwaysOk : String → String → Except String Unit :=
  fun _ _ => Except.ok ()

/-- A transport oracle failing exactly on one pane address. -/
def sndFailOn (bad : String) : String → String → Except String Unit :=
  fun pane _ =>
    if pane = bad then Except.error "Error: snd failed with code 1"
    else Except.ok ()

/-- Presence file of agent `bobby-aaaa1111` at pane `s:1.0`. -/
def bobbyFile : PresenceFile :=
  { agent_id := some "bobby-aaaa1111", agent_name := some "bobby"
    tmux_session := some "s", tmux_window := some "1", tmux_pane := some "0"
    mtimeMs := 0 }

/-- Presence file of agent `carol-cccc3333` at pane `s:1.1`. -/
def carolFile : PresenceFile :=
  { agent_id := some "carol-cccc3333", agent_name := some "carol"
    tmux_session := some "s", tmux_window := some "1", tmux_pane := some "1"
    mtimeMs := 0 }

/-- Presence file of agent `dora-dddd4444` whose tmux session field is
missing, so no pane address can be assembled. -/
def nopaneFile : PresenceFile :=
  { agent_id := some "dora-dddd4444", agent_name := some "dora"
    tmux_session := none, tmux_window := some "1", tmux_pane := some "0"
    mtimeMs := 0 }

/-- A two-agent presence directory. -/
def demoFiles : List PresenceFile := [bobbyFile, carolFile]

/-! ### Helper lemmas -/

lemma getActiveAgents_true_eq (now : Int) (files : List PresenceFile) :
    getActiveAgents true now files = files.map (mkAgent now) := by
  induction files with
  | nil => rfl
  | cons f fs ih =>
    simp [getActiveAgents, List.filterMap_cons] at ih ⊢
    exact ih

lemma getActiveAgents_false_eq (now : Int) (files : List PresenceFile) :
    getActiveAgents false now files =
      (files.map (mkAgent now)).filter (fun a => !a.is_stale) := by
  induction files with
  | nil => rfl
  | cons f fs ih =>
    simp only [getActiveAgents, List.filterMap_cons, List.map_cons, List.filter_cons] at ih ⊢
    cases h : isStaleFile now f with
    | true => simpa [h, mkAgent] using ih
    | false => simpa [h, mkAgent] using ih

lemma mkAgent_mem_getActiveAgents (now : Int) {f : PresenceFile}
    {files : List PresenceFile} (hf : f ∈ files) (h : isStaleFile now f = false) :
    mkAgent now f ∈ getActiveAgents false now files := by
  simp only [getActiveAgents, List.mem_filterMap]
  exact ⟨f, hf, by simp [h]⟩

lemma agentBroadcast_calls_panes (snd : String → String → Except String Unit)
    (now : Int) (files : List PresenceFile) (args : BroadcastArgs) :
    (agentBroadcast snd now files args).2.map Prod.fst =
      (broadcastTargets (getActiveAgents false now files) args.agent_id).map
        AgentInfo.tmux_pane := by
  simp only [agentBroadcast]
  by_cases h : (broadcastTargets (getActiveAgents false now files) args.agent_id).length = 0
  · rw [if_pos h, List.length_eq_zero.mp h]
    rfl
  · rw [if_neg h]
    simp [List.map_map]

lemma agentBroadcast_empty (snd : String → String → Except String Unit)
    (now : Int) (files : List PresenceFile) (args : BroadcastArgs)
    (h : broadcastTargets (getActiveAgents false now files) args.agent_id = []) :
    agentBroadcast snd now files args = ("No other agents to broadcast to", []) := by
  simp only [agentBroadcast]
  rw [if_pos (by rw [h]; rfl)]

/-! ### Claim theorems -/

/-- Claim C1: for every broadcast call, the target set equals the active
(non-stale) agent list minus the sender itself minus every record lacking a
usable pane address; when this target set is empty the call returns the
sentinel `"No other agents to broadcast to"` and makes zero transport
calls (the call trace is empty). -/
theorem broadcast_target_set_and_empty_sentinel
    (snd : String → String → Except String Unit) (now : Int)
    (files : List PresenceFile) (args : BroadcastArgs) :
    broadcastTargets (getActiveAgents false now files) args.agent_id =
      (getActiveAgents false now files).filter
        (fun a => a.id != args.agent_id && a.tmux_pane != "") ∧
    (agentBroadcast snd now files args).2.map Prod.fst =
      (broadcastTargets (getActiveAgents false now files) args.agent_id).map
        AgentInfo.tmux_pane ∧
    (broadcastTargets (getActiveAgents false now files) args.agent_id = [] →
      agentBroadcast snd now files args = ("No other agents to broadcast to", [])) :=
  ⟨rfl, agentBroadcast_calls_panes snd now files args,
    agentBroadcast_empty snd now files args⟩

/-- Sender is the only registered agent and the one other presence file has
no pane: the broadcast returns the sentinel and the transport trace is
empty. -/
theorem broadcast_target_set_and_empty_sentinel_witness :
    agentBroadcast sndAlwaysOk 0 [bobbyFile, nopaneFile] ⟨"bobby-aaaa1111", "hi"⟩ =
      ("No other agents to broadcast to", []) :=
  (broadcast_target_set_and_empty_sentinel sndAlwaysOk 0 [bobbyFile, nopaneFile]
      ⟨"bobby-aaaa1111", "hi"⟩).2.2 (by decide)

/-- Claim C2: `getActiveAgents false` (discovery without stale records) keeps
exactly the non-stale presence files, `getActiveAgents true` keeps every file
and marks each record with its staleness, and the stale marker is exactly
"file age above the 5-minute threshold". -/
theorem discover_staleness_filter (now : Int) (files : List PresenceFile) :
    getActiveAgents false now files =
      (files.map (mkAgent now)).filter (fun a => !a.is_stale) ∧
    getActiveAgents true now files = files.map (mkAgent now) ∧
    ∀ f : PresenceFile,
      (mkAgent now f).is_stale = decide (now - f.mtimeMs > staleThreshold) :=
  ⟨getActiveAgents_false_eq now files, getActiveAgents_true_eq now files,
    fun _ => rfl⟩

lemma takeWhile_append_stop {α} (p : α → Bool) (l₁ l₂ : List α) (a : α)
    (h : l₁.all p = true) (ha : p a = false) :
    (l₁ ++ a :: l₂).takeWhile p = l₁ := by
  induction l₁ with
  | nil => simp [List.takeWhile_cons, ha]
  | cons x xs ih =>
    simp only [List.all_cons, Bool.and_eq_true] at h
    simp [List.takeWhile_cons, h.1, ih h.2]

lemma senderShortName_append (name suffix : String)
    (h : name.toList.all (fun c => c != '-') = true) :
    senderShortName (name ++ "-" ++ suffix) = name := by
  obtain ⟨l₁⟩ := name
  obtain ⟨l₂⟩ := suffix
  show String.mk (((l₁ ++ ['-']) ++ l₂).takeWhile (fun c => c != '-')) = String.mk l₁
  rw [List.append_assoc, List.singleton_append,
    takeWhile_append_stop _ l₁ l₂ '-' h (by decide)]

/-- Claim C3 (recording the code bug): `agentDM` resolves its `to` argument
by exact id match only; a reference that is the short name of the sole agent
carrying that name is NOT resolved and yields the not-found reply, although
the exact id resolves.  The test suite and README of the repository document
short-name resolution as the intended behavior. -/
theorem dm_short_name_not_resolved :
    agentDM sndAlwaysOk 0 [bobbyFile] ⟨"alice-bbbb2222", "bobby", "hi"⟩ =
      ("Agent bobby not found", []) ∧
    agentDM sndAlwaysOk 0 [bobbyFile] ⟨"alice-bbbb2222", "bobby-aaaa1111", "hi"⟩ =
      ("DM sent to bobby", [("s:1.0", "[DM from alice] hi")]) :=
  ⟨by decide, by decide⟩

/-- Counterexample to claim C4: for the sender id `test-agent-1-aaa1b2c3`
(registered name `test-agent-1`, generated hex suffix `aaa1b2c3`), the
prepended short-name is `test`, not the full portion `test-agent-1` before
the generated suffix, and the broadcast message actually sent is
`[test] hi`. -/
theorem short_name_truncated_counterexample :
    senderShortName "test-agent-1-aaa1b2c3" = "test" ∧
    ("test" : String) ≠ "test-agent-1" ∧
    (agentBroadcast sndAlwaysOk 0 [bobbyFile] ⟨"test-agent-1-aaa1b2c3", "hi"⟩).2 =
      [("s:1.0", "[test] hi")] :=
  ⟨by decide, by decide, by decide⟩

/-- Claim C4 as amended: the short-name prepended to outgoing messages —
`[<short-name>] <message>` for broadcast and `[DM from <short-name>]
<message>` for direct messages — is the portion of the sender id before the
FIRST hyphen, which coincides with the full portion before the generated
`-<hex>` suffix exactly when the registered name itself contains no
hyphen. -/
theorem short_name_first_hyphen_amended
    (snd : String → String → Except String Unit) (now : Int)
    (files : List PresenceFile) (args : BroadcastArgs) (dargs : DMArgs)
    (name suffix : String) (h : name.toList.all (fun c => c != '-') = true) :
    ((agentBroadcast snd now files args).2.map Prod.snd).all
      (fun m => m == "[" ++ senderShortName args.agent_id ++ "] " ++ args.message) =
      true ∧
    ((agentDM snd now files dargs).2.map Prod.snd).all
      (fun m =>
        m == "[DM from " ++ senderShortName dargs.agent_id ++ "] " ++ dargs.message) =
      true ∧
    senderShortName (name ++ "-" ++ suffix) = name := by
  refine ⟨?_, ?_, senderShortName_append name suffix h⟩
  · simp only [agentBroadcast]
    by_cases hl :
        (broadcastTargets (getActiveAgents false now files) args.agent_id).length = 0
    · rw [if_pos hl]
      rfl
    · rw [if_neg hl]
      simp [List.all_eq_true, List.mem_map]
  · simp only [agentDM]
    cases hf : (getActiveAgents false now files).find? (fun a => a.id == dargs.toAgent) with
    | none => rfl
    | some target =>
      by_cases hp : target.tmux_pane = ""
      · simp [hp]
      · cases hs : snd target.tmux_pane
            ("[DM from " ++ senderShortName dargs.agent_id ++ "] " ++ dargs.message) with
        | ok _ => simp [hp, hs]
        | error e => simp [hp, hs]

/-- The amended C4 at concrete inputs: a broadcast and a DM from
`bobby-aaaa1111` both carry the `bobby` short-name, and splitting the
hyphen-free name `bobby` off `bobby-aaaa1111` recovers it. -/
theorem short_name_first_hyphen_amended_witness :
    ((agentBroadcast sndAlwaysOk 0 demoFiles ⟨"bobby-aaaa1111", "hi"⟩).2.map
        Prod.snd).all
      (fun m => m == "[" ++ senderShortName "bobby-aaaa1111" ++ "] " ++ "hi") = true ∧
    ((agentDM sndAlwaysOk 0 demoFiles
          ⟨"bobby-aaaa1111", "carol-cccc3333", "hi"⟩).2.map Prod.snd).all
      (fun m => m == "[DM from " ++ senderShortName "bobby-aaaa1111" ++ "] " ++ "hi") =
      true ∧
    senderShortName ("bobby" ++ "-" ++ "aaaa1111") = "bobby" :=
  short_name_first_hyphen_amended sndAlwaysOk 0 demoFiles ⟨"bobby-aaaa1111", "hi"⟩
    ⟨"bobby-aaaa1111", "carol-cccc3333", "hi"⟩ "bobby" "aaaa1111" (by decide)

/-- Claim C5 (recording the code bug): `agentRegister` allocates the id and
returns the registration JSON, but persists nothing — the presence-file
state is returned unchanged for every call, and registering against an empty
presence directory leaves discovery reporting no agents, although the README
states that registration creates the tracking file of the agent. -/
theorem register_does_not_persist :
    agentRegister "bobby" "finds things" "aaaa1111" [] =
      (registerResultJson "bobby-aaaa1111", []) ∧
    agentDiscover false 0 [] = "No agents currently registered." ∧
    ∀ (name description suffix : String) (files : List PresenceFile),
      (agentRegister name description suffix files).2 = files :=
  ⟨rfl, rfl, fun _ _ _ _ => rfl⟩

/-- Counterexample to claim C6: no tool schema of the direct variant has a
`group` property — broadcast accepts no group argument at all. -/
theorem broadcast_group_counterexample :
    "group" ∉ agentBroadcastSchemaKeys ∧
    "group" ∉ agentRegisterSchemaKeys ∧
    "group" ∉ agentDiscoverSchemaKeys := by
  refine ⟨by decide, by decide, by decide⟩

/-- Claim C6 as amended: broadcast accepts exactly `agent_id`, `message` and
the optional `priority` — there is no group argument, registration records no
group — and the fan-out target set is every active agent except the sender
that has a pane address, with no group filtering of any kind. -/
theorem broadcast_no_group_amended
    (snd : String → String → Except String Unit) (now : Int)
    (files : List PresenceFile) (args : BroadcastArgs) :
    agentBroadcastSchemaKeys = ["agent_id", "message", "priority"] ∧
    agentRegisterSchemaKeys = ["name", "description"] ∧
    (agentBroadcast snd now files args).2.map Prod.fst =
      ((getActiveAgents false now files).filter
        (fun a => a.id != args.agent_id && a.tmux_pane != "")).map
        AgentInfo.tmux_pane :=
  ⟨rfl, rfl, agentBroadcast_calls_panes snd now files args⟩

/-- Counterexample to claim C7: in the bus variant a rejected publish makes
the whole broadcast fail with an error — no per-target outcome, no attempted
count — so per-target failure collection does not hold in both transport
variants. -/
theorem bus_broadcast_abort_counterexample :
    busAgentBroadcast (fun _ _ => Except.error "publish rejected")
      ⟨"alice-bbbb2222", "hi", "normal"⟩ 0 = Except.error "publish rejected" := rfl

/-- Claim C7 as amended: in the direct variant, a delivery failure for one
target does not abort the remaining deliveries — the reply lists one ✓/✗
outcome per attempted target, each determined solely by the own
transport result, plus the overall count of attempted targets; the bus
variant instead performs a single publish to the broadcast subject and
replies `"Broadcast sent"` when it succeeds. -/
theorem broadcast_per_target_amended
    (snd : String → String → Except String Unit) (now : Int)
    (files : List PresenceFile) (args : BroadcastArgs)
    (publish : String → String → Except String String)
    (bargs : BusBroadcastArgs) (ts : Int) (ok : String)
    (hne : broadcastTargets (getActiveAgents false now files) args.agent_id ≠ [])
    (hp : publish "agents.broadcast" (busBroadcastPayload bargs ts) = Except.ok ok) :
    (agentBroadcast snd now files args).1 =
      "Broadcast sent to " ++
        toString
          (broadcastTargets (getActiveAgents false now files) args.agent_id).length ++
        " agent(s):\n" ++
        String.intercalate "\n"
          ((broadcastTargets (getActiveAgents false now files) args.agent_id).map
            (fun t =>
              match snd t.tmux_pane
                  ("[" ++ senderShortName args.agent_id ++ "] " ++ args.message) with
              | Except.ok _ => "✓ " ++ t.name
              | Except.error e => "✗ " ++ t.name ++ ": " ++ e)) ∧
    (agentBroadcast snd now files args).2.length =
      (broadcastTargets (getActiveAgents false now files) args.agent_id).length ∧
    busAgentBroadcast publish bargs ts = Except.ok "Broadcast sent" := by
  have hlen : ¬ (broadcastTargets (getActiveAgents false now files)
      args.agent_id).length = 0 :=
    fun hl => hne (List.length_eq_zero.mp hl)
  refine ⟨?_, ?_, ?_⟩
  · simp only [agentBroadcast]
    rw [if_neg hlen]
  · simp only [agentBroadcast]
    rw [if_neg hlen]
    simp
  · simp only [busAgentBroadcast]
    rw [hp]

/-- The amended C7 at a concrete input: two active targets, the transport
failing on the first pane; the reply carries both per-target outcomes and the
count 2, and a successful bus publish yields `"Broadcast sent"`. -/
theorem broadcast_per_target_amended_witness :
    (agentBroadcast (sndFailOn "s:1.0") 0 demoFiles ⟨"alice-bbbb2222", "hi"⟩).1 =
      "Broadcast sent to 2 agent(s):\n✗ bobby: Error: snd failed with code 1\n✓ carol" ∧
    (agentBroadcast (sndFailOn "s:1.0") 0 demoFiles ⟨"alice-bbbb2222", "hi"⟩).2.length =
      2 ∧
    busAgentBroadcast (fun _ _ => Except.ok "OK") ⟨"alice-bbbb2222", "hi", "normal"⟩ 0 =
      Except.ok "Broadcast sent" :=
  broadcast_per_target_amended (sndFailOn "s:1.0") 0 demoFiles ⟨"alice-bbbb2222", "hi"⟩
    (fun _ _ => Except.ok "OK") ⟨"alice-bbbb2222", "hi", "normal"⟩ 0 "OK"
    (by decide) rfl

/-- Counterexample to claim C8: for a call with caller-supplied timeout `0`,
both subscriptions are bounded by the default 5000 ms budget, not by the
caller-supplied timeout. -/
theorem check_messages_zero_timeout_counterexample :
    (checkMessagesIssued "alice-bbbb2222" 0).map SubscribeArgs.timeoutMs =
      [5000, 5000] ∧
    (5000 : Nat) ≠ 0 :=
  ⟨by decide, by decide⟩

/-- Claim C8 as amended: `agentCheckMessages` issues the DM-subject and the
broadcast-subject subscriptions together (one batch handed to the concurrent
join), both bounded by one shared timeout budget — the caller-supplied
timeout whenever it is nonzero, else the 5000 ms default — merges the two
result sets, and reports `"No messages"` when both subscriptions come back
empty. -/
theorem check_messages_amended (bus : SubscribeArgs → String) (agent : String)
    (timeout : Nat) (h0 : timeout ≠ 0) :
    (checkMessagesIssued agent timeout).map SubscribeArgs.subject =
      ["agents.dm." ++ agent, "agents.broadcast"] ∧
    (checkMessagesIssued agent timeout).map SubscribeArgs.timeoutMs =
      [jsOrNat timeout 5000, jsOrNat timeout 5000] ∧
    jsOrNat timeout 5000 = timeout ∧
    (isNoMessages (bus (checkDmArgs agent (jsOrNat timeout 5000))) = true →
      isNoMessages (bus (checkBcArgs (jsOrNat timeout 5000))) = true →
      agentCheckMessages bus agent timeout = "No messages") ∧
    (isNoMessages (bus (checkDmArgs agent (jsOrNat timeout 5000))) = false →
      isNoMessages (bus (checkBcArgs (jsOrNat timeout 5000))) = false →
      agentCheckMessages bus agent timeout =
        "[DMs]\n" ++ bus (checkDmArgs agent (jsOrNat timeout 5000)) ++ "\n\n" ++
          ("[Broadcasts]\n" ++ bus (checkBcArgs (jsOrNat timeout 5000)))) := by
  refine ⟨rfl, rfl, by simp [jsOrNat, h0], ?_, ?_⟩
  · intro h1 h2
    simp [agentCheckMessages, h1, h2]
  · intro h1 h2
    simp only [agentCheckMessages, h1, h2]
    rfl

/-- The amended C8 at a concrete input: with an empty bus and timeout 1000,
the call reports `"No messages"`, and the effective shared budget is the 1000 supplied by the caller. -/
theorem check_messages_amended_witness :
    agentCheckMessages (fun _ => "No messages") "alice-bbbb2222" 1000 =
      "No messages" ∧
    jsOrNat 1000 5000 = 1000 := by
  have h := check_messages_amended (fun _ => "No messages") "alice-bbbb2222" 1000
    (by decide)
  exact ⟨h.2.2.2.1 (by decide) (by decide), h.2.2.1⟩

/-- Claim C9: `dmHistory` resolves the partner reference through the
Directory Resolver first — an unresolvable reference yields the not-found
reply — and when the reference resolves but the bidirectional ledger slice
between the two ids is empty, it returns the explicit
`"No DM history with X"` message rather than an empty rendering. -/
theorem dm_history_empty_message
    (ledger : List DmMessage) (candidates : List AgentInfo)
    (agent_a reference : String) (limit : Nat) (b : AgentInfo)
    (hres : resolveAgent reference candidates = ResolveResult.found b)
    (hemp : dmBetween ledger agent_a b.id = []) :
    dmHistory ledger candidates agent_a reference limit =
      "No DM history with " ++ reference ∧
    ∀ r : String, resolveAgent r candidates = ResolveResult.notFound →
      dmHistory ledger candidates agent_a r limit = "Agent " ++ r ++ " not found" := by
  constructor
  · simp [dmHistory, hres, hemp]
  · intro r hr
    simp [dmHistory, hr]

/-- The C9 theorem at a concrete input: resolving the short name `bobby`
against a sole candidate and an empty ledger yields the explicit
empty-history message. -/
theorem dm_history_empty_message_witness :
    dmHistory [] [⟨"bobby-aaaa1111", "bobby", "s:1.0", false⟩]
      "alice-bbbb2222" "bobby" 50 = "No DM history with bobby" := by
  have h := dm_history_empty_message [] [⟨"bobby-aaaa1111", "bobby", "s:1.0", false⟩]
    "alice-bbbb2222" "bobby" 50 ⟨"bobby-aaaa1111", "bobby", "s:1.0", false⟩
    (by decide) rfl
  exact h.1

/-- Claim C10: a presence file missing a tmux session/window/pane field gets
an empty pane address; discovery still lists it (rendering `pane: unknown`
and counting it), while broadcast never targets it and a DM addressed to it
returns the `"has no tmux pane"` reply with no transport call. -/
theorem missing_pane_agent_behavior
    (f : PresenceFile) (now : Int) (files : List PresenceFile)
    (snd : String → String → Except String Unit) (sender : String) (dargs : DMArgs)
    (hmiss : f.tmux_session = none ∨ f.tmux_window = none ∨ f.tmux_pane = none) :
    paneOf f = "" ∧
    (f ∈ files → isStaleFile now f = false →
      mkAgent now f ∈ getActiveAgents false now files) ∧
    ((mkAgent now f).is_stale = false →
      discoverLine (mkAgent now f) =
        "- " ++ (mkAgent now f).name ++ " (" ++ (mkAgent now f).id ++ "): " ++
          "active" ++ " | pane: " ++ "unknown") ∧
    mkAgent now f ∉ broadcastTargets (getActiveAgents false now files) sender ∧
    ((getActiveAgents false now files).find? (fun a => a.id == dargs.toAgent) =
        some (mkAgent now f) →
      agentDM snd now files dargs =
        ("Agent " ++ dargs.toAgent ++ " has no tmux pane", [])) := by
  have hpane : paneOf f = "" := by
    rcases f with ⟨fid, fname, fs, fw, fp, fm⟩
    dsimp only at hmiss
    rcases hmiss with h | h | h
    · subst h
      rfl
    · subst h
      cases fs <;> rfl
    · subst h
      cases fs <;> cases fw <;> rfl
  have hpane' : (mkAgent now f).tmux_pane = "" := hpane
  refine ⟨hpane, fun hf hst => mkAgent_mem_getActiveAgents now hf hst, ?_, ?_, ?_⟩
  · intro hs
    simp [discoverLine, hpane', hs]
  · intro hmem
    have hcond := (List.mem_filter.mp hmem).2
    rw [hpane'] at hcond
    simp at hcond
  · intro hfind
    simp only [agentDM]
    rw [hfind]
    simp [hpane']

/-- The C10 theorem at a concrete input: the `dora-dddd4444` presence file
lacking its tmux session is listed by discovery with an `unknown` pane, is
never a broadcast target, and a DM to it returns the no-pane reply with an
empty transport trace. -/
theorem missing_pane_agent_behavior_witness :
    paneOf nopaneFile = "" ∧
    mkAgent 0 nopaneFile ∈ getActiveAgents false 0 [nopaneFile] ∧
    discoverLine (mkAgent 0 nopaneFile) =
      "- dora (dora-dddd4444): active | pane: unknown" ∧
    mkAgent 0 nopaneFile ∉
      broadcastTargets (getActiveAgents false 0 [nopaneFile]) "alice-bbbb2222" ∧
    agentDM sndAlwaysOk 0 [nopaneFile] ⟨"alice-bbbb2222", "dora-dddd4444", "hi"⟩ =
      ("Agent dora-dddd4444 has no tmux pane", []) := by
  have h := missing_pane_agent_behavior nopaneFile 0 [nopaneFile] sndAlwaysOk
    "alice-bbbb2222" ⟨"alice-bbbb2222", "dora-dddd4444", "hi"⟩ (Or.inl rfl)
  exact ⟨h.1, h.2.1 (by decide) (by decide), by decide, h.2.2.2.1,
    h.2.2.2.2 (by decide)⟩

end AgentsMcp
